import Mathlib

/-
  Verification of the python-mcp session-manager core against its design
  specification.

  The development shallowly embeds the Python sources:
    - src/python-mcp/common/protocol.py      (MCPProtocol)
    - src/session_manager/dispatcher.py      (RequestDispatcher, REQUEST_TYPE_MAPPING)
    - src/session_manager/app.py             (Flask composition root)
    - src/session_manager/session.py         (Session, SessionManager)
    - src/session_manager/notifications.py   (NotificationsHandler)

  JSON-like Python values are modelled by the inductive `Value`; Python dicts
  (which keep insertion order and have unique keys) are modelled by
  association lists with string keys; wall-clock readings
  (datetime.utcnow()) and generated uuids are passed in as explicit
  parameters; the outbound HTTP call performed by the dispatcher is passed in
  as an explicit transport function.
-/

namespace MCP

/-- A Python/JSON value as it appears in the session-manager code: None,
booleans, numbers, strings, lists and dicts (dicts as ordered association
lists with string keys, mirroring JSON objects). -/
inductive Value where
  | vNone
  | vBool (b : Bool)
  | vNum (n : Int)
  | vStr (s : String)
  | vList (items : List Value)
  | vDict (fields : List (String × Value))
  deriving Repr

/-- Lookup in an association list: the first binding of the key, mirroring
Python dict access on a dict whose keys are unique. -/
def alookup {α : Type} : List (String × α) → String → Option α
  | [], _ => none
  | (k, v) :: rest, key => if k = key then some v else alookup rest key

/-- Membership test for a key, mirroring the Python expression
`key in d`. -/
def acontains {α : Type} (l : List (String × α)) (key : String) : Bool :=
  (alookup l key).isSome

/-- Dict update `d[key] = v`: replaces the first binding of the key in
place (Python dicts keep the original position of an updated key) and
appends a new binding otherwise. -/
def ainsert {α : Type} : List (String × α) → String → α → List (String × α)
  | [], key, v => [(key, v)]
  | (k, w) :: rest, key, v =>
      if k = key then (key, v) :: rest else (k, w) :: ainsert rest key v

/-- Dict deletion `del d[key]`: removes the first binding of the key. -/
def aerase {α : Type} : List (String × α) → String → List (String × α)
  | [], _ => []
  | (k, w) :: rest, key => if k = key then rest else (k, w) :: aerase rest key

/-- The keys of a dict, in insertion order (Python `list(d.keys())`). -/
def akeys {α : Type} (l : List (String × α)) : List String :=
  l.map Prod.fst

/-- Python truthiness of a value, as used by `if not x:` checks in the
sources. -/
def pyTruthy : Value → Bool
  | Value.vNone => false
  | Value.vBool b => b
  | Value.vNum n => n != 0
  | Value.vStr s => s ≠ ""
  | Value.vList items => !items.isEmpty
  | Value.vDict fields => !fields.isEmpty

/-- Field access `message.get(key)` on a value: a lookup when the value is a
dict, nothing otherwise. -/
def vget : Value → String → Option Value
  | Value.vDict fields, key => alookup fields key
  | _, _ => none

/- ===== src/python-mcp/common/protocol.py ===== -/

/-- Embedding of `MCPProtocol.validate_message(message, message_type)`: the
message must be a dict containing `id` and `timestamp`, plus `type` and
`payload` for a request, `requestId` and `status` for a response, `type` and
`data` for a notification; any other message type is invalid. -/
def validate_message (message : Value) (message_type : String) : Bool :=
  match message with
  | Value.vDict fields =>
      if !(acontains fields "id" && acontains fields "timestamp") then
        false
      else if message_type = "request" then
        acontains fields "type" && acontains fields "payload"
      else if message_type = "response" then
        acontains fields "requestId" && acontains fields "status"
      else if message_type = "notification" then
        acontains fields "type" && acontains fields "data"
      else
        false
  | _ => false

/-- Embedding of `MCPProtocol.create_notification(type_name, data, **options)`
with the generated uuid and the clock reading passed in explicitly (the code
draws them from `uuid.uuid4()` and `datetime.utcnow()`), and the `source`
option as used by the notifications handler. -/
def create_notification (type_name : String) (data : Value) (notif_id : String)
    (source : String) (now : Int) : Value :=
  Value.vDict
    [("id", Value.vStr notif_id),
     ("timestamp", Value.vNum now),
     ("type", Value.vStr type_name),
     ("data", data),
     ("metadata", Value.vDict
        [("version", Value.vStr "1.0"), ("source", Value.vStr source)])]

/- ===== src/session_manager/dispatcher.py ===== -/

/-- The static routing table `REQUEST_TYPE_MAPPING` of dispatcher.py,
verbatim. -/
def REQUEST_TYPE_MAPPING : List (String × String) :=
  [("resource-request", "1"),
   ("sampling-task", "2"),
   ("tool-execution", "3"),
   ("database-query", "4"),
   ("internet-search", "5"),
   ("root-operation", "6"),
   ("prompt-management", "7"),
   ("llm-response", "1"),
   ("default", "1")]

/-- The entry `REQUEST_TYPE_MAPPING['default']` (present in the table, so the
`getD` fallback is never taken). -/
def default_server_id : String :=
  (alookup REQUEST_TYPE_MAPPING "default").getD ""

/-- Routing-table lookup with a non-string key: Python
`REQUEST_TYPE_MAPPING.get(k, ...)` misses on any key that is not one of the
string keys of the table. -/
def mapping_get : Value → Option String
  | Value.vStr s => alookup REQUEST_TYPE_MAPPING s
  | _ => none

/-- The backend id resolved by dispatcher.py for a request:
`request.get('type', 'default')` then
`REQUEST_TYPE_MAPPING.get(request_type, REQUEST_TYPE_MAPPING['default'])`. -/
def resolve_server_id (request : Value) : String :=
  let request_type := (vget request "type").getD (Value.vStr "default")
  (mapping_get request_type).getD default_server_id

/-- Outcome of the outbound HTTP POST performed by `requests.post`: either a
response (with status code, parsed JSON body and raw text) or a raised
`requests.exceptions.RequestException` (timeouts included) carrying its
message. -/
inductive HttpOutcome where
  | resp (status : Int) (body : Value) (text : String)
  | exn (msg : String)
  deriving Repr

/-- The distinct error exits of `RequestDispatcher.dispatch`, each a
`ValueError` in the source, told apart by the message each raise site
formats. -/
inductive DispatchError where
  | requestError
  | configurationError (server_id : String)
  | backendStatusError (server_id : String) (text : String)
  | transportError (msg : String)
  deriving Repr, DecidableEq

/-- The message `str(e)` of each `ValueError` raised by `dispatch`. -/
def DispatchError.message : DispatchError → String
  | DispatchError.requestError => "Invalid request format"
  | DispatchError.configurationError sid =>
      "No server URL configured for server " ++ sid
  | DispatchError.backendStatusError sid text =>
      "Server " ++ sid ++ " returned error: " ++ text
  | DispatchError.transportError msg =>
      "Failed to dispatch request: " ++ msg

/-- Embedding of `RequestDispatcher.dispatch(request)`. The HTTP call is the
`transport` parameter, applied to the target url and the bounded timeout in
seconds; the configured base addresses are `server_urls`. Steps, as in the
source: validate the envelope, resolve the backend id from the routing
table, reject a missing or empty base address, forward to `{url}/process`
with a 30s timeout, reject a status other than 200 carrying the backend id
and the raw response text, reject a transport exception with its message,
and otherwise return the parsed response body unchanged. -/
def dispatch (server_urls : List (String × String))
    (transport : String → Nat → HttpOutcome) (request : Value) :
    Except DispatchError Value :=
  if !validate_message request "request" then
    Except.error DispatchError.requestError
  else
    let server_id := resolve_server_id request
    match alookup server_urls server_id with
    | none => Except.error (DispatchError.configurationError server_id)
    | some url =>
        if url = "" then
          Except.error (DispatchError.configurationError server_id)
        else
          match transport (url ++ "/process") 30 with
          | HttpOutcome.exn msg =>
              Except.error (DispatchError.transportError msg)
          | HttpOutcome.resp status body text =>
              if status ≠ 200 then
                Except.error (DispatchError.backendStatusError server_id text)
              else
                Except.ok body

/- ===== src/session_manager/app.py ===== -/

/-- One record of `session['activeRequests']` in app.py: the tracking
timestamp and the (possibly id-completed) request body. -/
structure ActiveRequest where
  timestamp : Int
  request : List (String × Value)
  deriving Repr

/-- One value of the module-level `sessions` dict in app.py: a plain dict
with the fields written by the create-session route. Timestamps
(isoformat strings in the source) are modelled as integer clock readings. -/
structure PySession where
  clientId : Value
  created : Int
  lastActivity : Int
  activeRequests : List (String × ActiveRequest)
  deriving Repr

/-- Embedding of the module-level `send_notification(client_id, notification)`
of app.py that is in effect (the file defines the function twice and the
second definition wins): when the client id is a key of `sse_clients` it
logs the notification and returns True, otherwise it returns False. It
writes nothing to any event stream and keeps no queue; `sse_clients` only
ever maps a client id to `True`, so it is modelled as the list of
registered ids. -/
def app_send_notification (sse_clients : List String) (client_id : Value)
    (notification : List (String × Value)) : Bool :=
  match client_id, notification with
  | Value.vStr s, _ => sse_clients.contains s
  | _, _ => false

/-- The result of the `POST /sessions/{id}/requests` route: the sessions
table after the call, the `send_notification(client, payload)` calls made
(in order), and the HTTP status and JSON body returned. -/
structure HandleResult where
  sessions : List (String × PySession)
  emissions : List (Value × List (String × Value))
  status : Nat
  body : Value
  deriving Repr

/-- The request id chosen by `handle_request`:
`request_data.get('id', str(uuid.uuid4()))`. Ids are modelled as strings
(the envelope calls `id` an opaque string and a non-string id is not a
usable dict key for the tracking map); the fresh uuid is the `fresh_id`
parameter. -/
def request_id_of (request_data : List (String × Value)) (fresh_id : String) :
    String :=
  match alookup request_data "id" with
  | some (Value.vStr s) => s
  | some _ => ""
  | none => fresh_id

/-- The body completed with a generated id when it had none:
`if 'id' not in request_data: request_data['id'] = request_id`. -/
def request_data_with_id (request_data : List (String × Value))
    (fresh_id : String) : List (String × Value) :=
  if acontains request_data "id" then request_data
  else ainsert request_data "id" (Value.vStr fresh_id)

/-- Embedding of the route `handle_request(session_id)` of app.py over a
JSON-object request body. In source order: a 404 when the session is
unknown; `session['lastActivity']` set to now; the request id defaulted;
the request tracked in `session['activeRequests']`; the dispatcher called;
on either outcome the tracking entry deleted (guarded by an `in` check) and
exactly one `send_notification` call made to `session['clientId']`
(`request-completed` with a 200 response, `request-error` with a 500
`{error, message}` body). The clock readings of the handler are the single
parameter `now`; the dispatcher transport is passed through. -/
def handle_request (sessions : List (String × PySession)) (session_id : String)
    (request_data : List (String × Value))
    (server_urls : List (String × String))
    (transport : String → Nat → HttpOutcome) (fresh_id : String) (now : Int) :
    HandleResult :=
  match alookup sessions session_id with
  | none =>
      { sessions := sessions, emissions := [], status := 404,
        body := Value.vDict [("error", Value.vStr "Session not found")] }
  | some session =>
      let request_id := request_id_of request_data fresh_id
      let request_data1 := request_data_with_id request_data fresh_id
      let tracked : List (String × ActiveRequest) :=
        ainsert session.activeRequests request_id
          { timestamp := now, request := request_data1 }
      let session1 : PySession :=
        { session with lastActivity := now, activeRequests := tracked }
      let untracked : List (String × ActiveRequest) :=
        if acontains tracked request_id then aerase tracked request_id
        else tracked
      match dispatch server_urls transport (Value.vDict request_data1) with
      | Except.ok response =>
          let session2 : PySession :=
            { session1 with activeRequests := untracked }
          { sessions := ainsert sessions session_id session2,
            emissions := [(session.clientId,
              [("type", Value.vStr "request-completed"),
               ("requestId", Value.vStr request_id),
               ("sessionId", Value.vStr session_id),
               ("timestamp", Value.vNum now)])],
            status := 200,
            body := response }
      | Except.error e =>
          let session2 : PySession :=
            { session1 with activeRequests := untracked }
          { sessions := ainsert sessions session_id session2,
            emissions := [(session.clientId,
              [("type", Value.vStr "request-error"),
               ("requestId", Value.vStr request_id),
               ("sessionId", Value.vStr session_id),
               ("error", Value.vStr e.message),
               ("timestamp", Value.vNum now)])],
            status := 500,
            body := Value.vDict
              [("error", Value.vStr "Failed to process request"),
               ("message", Value.vStr e.message)] }

/-- Embedding of the route `create_session()` of app.py: reads
`data.get('clientId')`, answers 400 and stores nothing when it is missing
or falsy, and otherwise stores a fresh session (id `fresh_id` from
`uuid.uuid4()`, both timestamps `now`, empty active-request dict) and
answers 201 with the session id. Returns (status, body, table after). -/
def create_session_route (sessions : List (String × PySession))
    (data : List (String × Value)) (fresh_id : String) (now : Int) :
    Nat × Value × List (String × PySession) :=
  let client_id := (alookup data "clientId").getD Value.vNone
  if !pyTruthy client_id then
    (400, Value.vDict [("error", Value.vStr "Client ID is required")], sessions)
  else
    (201, Value.vDict [("sessionId", Value.vStr fresh_id)],
     ainsert sessions fresh_id
       { clientId := client_id, created := now, lastActivity := now,
         activeRequests := [] })

/-- The initial `connected` event of the `GET /events/{client_id}` stream in
app.py. -/
def connected_event (client_id : String) (now : Int) :
    List (String × Value) :=
  [("type", Value.vStr "connected"),
   ("clientId", Value.vStr client_id),
   ("timestamp", Value.vNum now)]

/-- One keep-alive `ping` event of the stream, with its running count. -/
def ping_event (count : Nat) (now : Int) : List (String × Value) :=
  [("type", Value.vStr "ping"),
   ("count", Value.vNum count),
   ("timestamp", Value.vNum now)]

/-- The events yielded by the generator of the `events(client_id)` route of
app.py after `pings` iterations of its keep-alive loop: the initial
`connected` event, then one `ping` event per 30 second sleep. The generator
reads nothing else; in particular it reads no notification queue, so these
are the only events the stream ever carries. `times i` is the clock reading
at the i-th yield. -/
def events_stream (client_id : String) (times : Nat → Int) (pings : Nat) :
    List (List (String × Value)) :=
  connected_event client_id (times 0) ::
    (List.range pings).map (fun i => ping_event (i + 1) (times (i + 1)))

/-- The payload of the `session-expired` notification sent by the cleanup
loop of app.py. -/
def session_expired_payload (session_id : String) (now : Int) :
    List (String × Value) :=
  [("type", Value.vStr "session-expired"),
   ("sessionId", Value.vStr session_id),
   ("timestamp", Value.vNum now)]

/-- The inactivity test of the cleanup loop of app.py:
`(now - last_activity).total_seconds() > 1800`. -/
def app_expired (session : PySession) (now : Int) : Bool :=
  now - session.lastActivity > 1800

/-- The body of the `for session_id in list(sessions.keys())` loop of
`cleanup_sessions` in app.py, processing the key snapshot in order: a
session whose `now - lastActivity` exceeds 1800 seconds is deleted from the
table and one `send_notification(clientId, session-expired)` call is made
for it; every other session is left alone. Returns the table after the
pass and the notification calls in order. -/
def sweep_keys (now : Int) :
    List String → List (String × PySession) →
      List (String × PySession) × List (Value × List (String × Value))
  | [], tbl => (tbl, [])
  | sid :: rest, tbl =>
      match alookup tbl sid with
      | none => sweep_keys now rest tbl
      | some session =>
          if app_expired session now then
            let out := sweep_keys now rest (aerase tbl sid)
            (out.1, (session.clientId, session_expired_payload sid now) :: out.2)
          else
            sweep_keys now rest tbl

/-- One pass of the infinite `cleanup_sessions` loop of app.py (the loop
sleeps 300 seconds between passes; one pass is what acts on the table). -/
def cleanup_sessions_pass (sessions : List (String × PySession)) (now : Int) :
    List (String × PySession) × List (Value × List (String × Value)) :=
  sweep_keys now (akeys sessions) sessions

/- ===== src/session_manager/session.py ===== -/

/-- Embedding of the `Session` objects managed by `SessionManager` in
session.py, keeping the fields its sweep reads. -/
structure MSession where
  client_id : String
  created : Int
  last_activity : Int
  deriving Repr

/-- Embedding of `Session.is_inactive(timeout_seconds)` at clock reading
`now`: the inactive time `now - last_activity` strictly exceeds the
timeout. -/
def is_inactive (s : MSession) (timeout_seconds now : Int) : Bool :=
  now - s.last_activity > timeout_seconds

/-- Embedding of `SessionManager.close_session(session_id)` acting on the
table: deletes the session when present. -/
def close_session_table (sessions : List (String × MSession))
    (session_id : String) : List (String × MSession) :=
  if acontains sessions session_id then aerase sessions session_id
  else sessions

/-- Embedding of `SessionManager.cleanup_inactive_sessions(timeout_seconds)`:
first collects the ids of the sessions that are inactive at `now` (in table
order), then closes each, and returns the Python value the method returns —
`len(inactive_sessions)`, a number — along with the table after the sweep. -/
def cleanup_inactive_sessions (sessions : List (String × MSession))
    (timeout_seconds now : Int) : Value × List (String × MSession) :=
  let inactive :=
    (sessions.filter (fun p => is_inactive p.2 timeout_seconds now)).map
      Prod.fst
  let remaining := inactive.foldl close_session_table sessions
  (Value.vNum inactive.length, remaining)

/- ===== src/session_manager/notifications.py ===== -/

/-- The mutable state of `NotificationsHandler`: the registered clients (the
keys of `self.clients`, in insertion order; the stored response objects are
modelled behaviourally by the `channel_write_ok` parameter of the
operations) and the per-client FIFO queues (`self.notification_queues`,
front of the list = oldest entry). -/
structure NotifState where
  clients : List String
  queues : List (String × List Value)
  deriving Repr

/-- Result of an operation that runs under `with self.lock:` where
`self.lock` is a non-reentrant `threading.Lock`. The error paths of
`send_notification` and `broadcast_notification` call
`self.unregister_client` — which itself opens `with self.lock:` — while the
calling thread already holds the lock, so the acquire blocks forever; that
execution is `deadlock`. -/
inductive LockOutcome (α : Type) where
  | ok (a : α)
  | deadlock
  deriving Repr

/-- Embedding of `NotificationsHandler.unregister_client(client_id)` as
called with the lock free: removes the client and its queue when
registered; idempotent otherwise. -/
def unregister_client (st : NotifState) (client_id : String) :
    Bool × NotifState :=
  if st.clients.contains client_id then
    (true, { clients := st.clients.erase client_id,
             queues := aerase st.queues client_id })
  else
    (false, st)

/-- The notification value built by `send_notification` and
`broadcast_notification` from the payload dict:
`MCPProtocol.create_notification(notification_data.get('type', default), notification_data, source='session-manager')`. -/
def built_notification (notification_data : Value) (default_type : String)
    (notif_id : String) (now : Int) : Value :=
  let type_name :=
    match vget notification_data "type" with
    | some (Value.vStr s) => s
    | _ => default_type
  create_notification type_name notification_data notif_id "session-manager"
    now

/-- The enqueue step `self.notification_queues[client_id].put(notification)`
guarded by `if client_id in self.notification_queues`. -/
def enqueue_notification (st : NotifState) (client_id : String)
    (notification : Value) : NotifState :=
  match alookup st.queues client_id with
  | some q =>
      { st with queues := ainsert st.queues client_id (q ++ [notification]) }
  | none => st

/-- Embedding of `NotificationsHandler.send_notification(client_id,
notification_data)`. `channel_write_ok c` tells whether
`self._send_event` on the stored response object of client c succeeds.
Under `with self.lock:`: an unregistered client id returns False with
nothing changed; otherwise the notification is built, enqueued, and written
to the channel; a write failure reaches the except branch, which calls
`self.unregister_client` while the non-reentrant lock is held — a
deadlock. -/
def send_notification (st : NotifState) (channel_write_ok : String → Bool)
    (client_id : String) (notification_data : Value) (notif_id : String)
    (now : Int) : LockOutcome (Bool × NotifState) :=
  if !st.clients.contains client_id then
    LockOutcome.ok (false, st)
  else
    let notification := built_notification notification_data "event" notif_id now
    let st1 := enqueue_notification st client_id notification
    if channel_write_ok client_id then
      LockOutcome.ok (true, st1)
    else
      LockOutcome.deadlock

/-- The `for client_id, response in list(self.clients.items())` loop of
`broadcast_notification`, carrying the running `sent_count`: per client,
enqueue then write; a write failure reaches the except branch, which calls
`self.unregister_client` under the held non-reentrant lock — a deadlock. -/
def broadcast_loop (channel_write_ok : String → Bool) (notification : Value) :
    List String → NotifState → Nat → LockOutcome (Nat × NotifState)
  | [], st, sent_count => LockOutcome.ok (sent_count, st)
  | c :: rest, st, sent_count =>
      let st1 := enqueue_notification st c notification
      if channel_write_ok c then
        broadcast_loop channel_write_ok notification rest st1 (sent_count + 1)
      else
        LockOutcome.deadlock

/-- Embedding of `NotificationsHandler.broadcast_notification(notification_data)`:
builds the notification outside the lock, then runs the delivery loop over
the registered clients under the lock. -/
def broadcast_notification (st : NotifState)
    (channel_write_ok : String → Bool) (notification_data : Value)
    (notif_id : String) (now : Int) : LockOutcome (Nat × NotifState) :=
  let notification := built_notification notification_data "broadcast" notif_id now
  broadcast_loop channel_write_ok notification st.clients st 0

/-- The drain loop of `get_client_notifications`: takes from the front of
the queue while it is non-empty and the count is under `max_count`
(unbounded when `max_count` is None). Returns (taken, left over). -/
def drain_loop : List Value → Option Nat → List Value × List Value
  | [], _ => ([], [])
  | x :: q, none =>
      let out := drain_loop q none
      (x :: out.1, out.2)
  | x :: q, some m =>
      if m = 0 then ([], x :: q)
      else
        let out := drain_loop q (some (m - 1))
        (x :: out.1, out.2)

/-- Embedding of `NotificationsHandler.get_client_notifications(client_id,
max_count)`: an empty list when the client has no queue; otherwise the
drained prefix, with the rest left queued (the source drains the shared
Queue object in place; the state after is returned explicitly). -/
def get_client_notifications (queues : List (String × List Value))
    (client_id : String) (max_count : Option Nat) :
    List Value × List (String × List Value) :=
  match alookup queues client_id with
  | none => ([], queues)
  | some q =>
      let out := drain_loop q max_count
      (out.1, ainsert queues client_id out.2)

/- ===== Association-list lemmas ===== -/

theorem alookup_ainsert_self {α : Type} (l : List (String × α)) (k : String)
    (v : α) : alookup (ainsert l k v) k = some v := by
  induction l with
  | nil => simp [ainsert, alookup]
  | cons p rest ih =>
      obtain ⟨k1, w⟩ := p
      by_cases h : k1 = k
      · subst h
        simp [ainsert, alookup]
      · simp [ainsert, alookup, h, ih]

theorem alookup_ainsert_ne {α : Type} (l : List (String × α)) (k sid : String)
    (v : α) (h : sid ≠ k) : alookup (ainsert l k v) sid = alookup l sid := by
  induction l with
  | nil => simp [ainsert, alookup, Ne.symm h]
  | cons p rest ih =>
      obtain ⟨k1, w⟩ := p
      by_cases h1 : k1 = k
      · subst h1
        simp [ainsert, alookup, Ne.symm h]
      · by_cases h2 : k1 = sid
        · subst h2
          simp [ainsert, alookup, h1]
        · simp [ainsert, alookup, h1, h2, ih]

theorem acontains_ainsert_self {α : Type} (l : List (String × α)) (k : String)
    (v : α) : acontains (ainsert l k v) k = true := by
  simp [acontains, alookup_ainsert_self]

theorem acontains_iff_mem_akeys {α : Type} (l : List (String × α))
    (k : String) : acontains l k = true ↔ k ∈ akeys l := by
  induction l with
  | nil => simp [acontains, alookup, akeys]
  | cons p rest ih =>
      obtain ⟨k1, w⟩ := p
      by_cases h : k1 = k
      · subst h
        simp [acontains, alookup, akeys]
      · simp [acontains, alookup, akeys, h, Ne.symm h] at ih ⊢
        exact ih

theorem acontains_eq_false_of_not_mem {α : Type} (l : List (String × α))
    (k : String) (h : k ∉ akeys l) : acontains l k = false := by
  cases hc : acontains l k
  · rfl
  · exact absurd ((acontains_iff_mem_akeys l k).mp hc) h

theorem aerase_sublist {α : Type} (l : List (String × α)) (k : String) :
    (aerase l k).Sublist l := by
  induction l with
  | nil => simp [aerase]
  | cons p rest ih =>
      obtain ⟨k1, w⟩ := p
      by_cases h : k1 = k
      · have e : aerase ((k1, w) :: rest) k = rest := by simp [aerase, h]
        rw [e]
        exact List.sublist_cons_self (k1, w) rest
      · have e : aerase ((k1, w) :: rest) k = (k1, w) :: aerase rest k := by
          simp [aerase, h]
        rw [e]
        exact List.Sublist.cons₂ (k1, w) ih

theorem akeys_nodup_aerase {α : Type} (l : List (String × α)) (k : String)
    (h : (akeys l).Nodup) : (akeys (aerase l k)).Nodup :=
  List.Nodup.sublist (List.Sublist.map Prod.fst (aerase_sublist l k)) h

theorem acontains_aerase_ainsert_self {α : Type} (l : List (String × α))
    (k : String) (v : α) (h : (akeys l).Nodup) :
    acontains (aerase (ainsert l k v) k) k = false := by
  induction l with
  | nil => simp [ainsert, aerase, acontains, alookup]
  | cons p rest ih =>
      obtain ⟨k1, w⟩ := p
      simp only [akeys, List.map_cons, List.nodup_cons] at h
      by_cases h1 : k1 = k
      · subst h1
        have e1 : ainsert ((k1, w) :: rest) k1 v = (k1, v) :: rest := by
          simp [ainsert]
        have e2 : aerase ((k1, v) :: rest) k1 = rest := by
          simp [aerase]
        rw [e1, e2]
        exact acontains_eq_false_of_not_mem rest k1 (by simpa [akeys] using h.1)
      · have e1 : ainsert ((k1, w) :: rest) k v = (k1, w) :: ainsert rest k v := by
          simp [ainsert, h1]
        have e2 : aerase ((k1, w) :: ainsert rest k v) k
            = (k1, w) :: aerase (ainsert rest k v) k := by
          simp [aerase, h1]
        rw [e1, e2]
        simpa [acontains, alookup, h1] using ih (by simpa [akeys] using h.2)

theorem aerase_eq_filter {α : Type} (l : List (String × α)) (k : String)
    (h : (akeys l).Nodup) :
    aerase l k = l.filter (fun p => !(p.1 == k)) := by
  induction l with
  | nil => simp [aerase]
  | cons p rest ih =>
      obtain ⟨k1, w⟩ := p
      simp only [akeys, List.map_cons, List.nodup_cons] at h
      by_cases h1 : k1 = k
      · subst h1
        have e2 : aerase ((k1, w) :: rest) k1 = rest := by
          simp [aerase]
        rw [e2, List.filter_cons_of_neg (by simp), Eq.comm, List.filter_eq_self]
        intro a ha
        have hne : a.1 ≠ k1 := by
          intro hh
          exact h.1 (hh ▸ List.mem_map_of_mem Prod.fst ha)
        simp [hne]
      · have e2 : aerase ((k1, w) :: rest) k = (k1, w) :: aerase rest k := by
          simp [aerase, h1]
        rw [e2, List.filter_cons_of_pos (by simp [h1]),
          ih (by simpa [akeys] using h.2)]

theorem keys_nodup_inj {α : Type} (l : List (String × α))
    (h : (akeys l).Nodup) (p q : String × α) (hp : p ∈ l) (hq : q ∈ l)
    (hk : p.1 = q.1) : p = q := by
  induction l with
  | nil => cases hp
  | cons a rest ih =>
      simp only [akeys, List.map_cons, List.nodup_cons] at h
      rcases List.mem_cons.mp hp with hp1 | hp2
      · rcases List.mem_cons.mp hq with hq1 | hq2
        · rw [hp1, hq1]
        · exfalso
          apply h.1
          rw [hp1] at hk
          exact hk ▸ List.mem_map_of_mem Prod.fst hq2
      · rcases List.mem_cons.mp hq with hq1 | hq2
        · exfalso
          apply h.1
          rw [hq1] at hk
          exact hk ▸ List.mem_map_of_mem Prod.fst hp2
        · exact ih h.2 hp2 hq2

/- ===== Drain-loop lemmas ===== -/

theorem drain_loop_none (q : List Value) : drain_loop q none = (q, []) := by
  induction q with
  | nil => rfl
  | cons x rest ih => simp [drain_loop, ih]

theorem drain_loop_some (q : List Value) (m : Nat) :
    drain_loop q (some m) = (q.take m, q.drop m) := by
  induction q generalizing m with
  | nil => simp [drain_loop]
  | cons x rest ih =>
      cases m with
      | zero => simp [drain_loop]
      | succ n => simp [drain_loop, ih]

/- ===== Claim theorems ===== -/

/-- C9: `validate(message, kind)` returns true if and only if the message is
a dict containing `id` and `timestamp`, plus `type` and `payload` for kind
`request`, `requestId` and `status` for kind `response`, `type` and `data`
for kind `notification`; it is total and pure, and an extra field never
makes a well-formed envelope fail validation. -/
theorem C9_validate_message_characterization :
    (∀ (m : Value) (kind : String),
       validate_message m kind = true ↔
         ∃ fields, m = Value.vDict fields ∧
           acontains fields "id" = true ∧
           acontains fields "timestamp" = true ∧
           ((kind = "request" ∧ acontains fields "type" = true ∧
               acontains fields "payload" = true) ∨
            (kind = "response" ∧ acontains fields "requestId" = true ∧
               acontains fields "status" = true) ∨
            (kind = "notification" ∧ acontains fields "type" = true ∧
               acontains fields "data" = true))) ∧
    (∀ (fields : List (String × Value)) (kind k : String) (v : Value),
       validate_message (Value.vDict fields) kind = true →
       validate_message (Value.vDict ((k, v) :: fields)) kind = true) := by
  have hcons : ∀ (fields : List (String × Value)) (k key : String) (v : Value),
      acontains fields key = true →
      acontains ((k, v) :: fields) key = true := by
    intro fields k key v h
    by_cases hk : k = key
    · simp [acontains, alookup, hk]
    · simpa [acontains, alookup, hk] using h
  have hchar : ∀ (m : Value) (kind : String),
      validate_message m kind = true ↔
        ∃ fields, m = Value.vDict fields ∧
          acontains fields "id" = true ∧
          acontains fields "timestamp" = true ∧
          ((kind = "request" ∧ acontains fields "type" = true ∧
              acontains fields "payload" = true) ∨
           (kind = "response" ∧ acontains fields "requestId" = true ∧
              acontains fields "status" = true) ∨
           (kind = "notification" ∧ acontains fields "type" = true ∧
              acontains fields "data" = true)) := by
    intro m kind
    cases m with
    | vNone => simp [validate_message]
    | vBool b => simp [validate_message]
    | vNum n => simp [validate_message]
    | vStr s => simp [validate_message]
    | vList items => simp [validate_message]
    | vDict fields =>
        by_cases hid : acontains fields "id" = true
        · by_cases hts : acontains fields "timestamp" = true
          · by_cases hk1 : kind = "request"
            · subst hk1
              have h12 : ¬ (("request" : String) = "response") := by decide
              have h13 : ¬ (("request" : String) = "notification") := by decide
              simp [validate_message, hid, hts, h12, h13]
            · by_cases hk2 : kind = "response"
              · subst hk2
                have h21 : ¬ (("response" : String) = "request") := by decide
                have h23 : ¬ (("response" : String) = "notification") := by
                  decide
                simp [validate_message, hid, hts, h21, h23]
              · by_cases hk3 : kind = "notification"
                · subst hk3
                  have h31 : ¬ (("notification" : String) = "request") := by
                    decide
                  have h32 : ¬ (("notification" : String) = "response") := by
                    decide
                  simp [validate_message, hid, hts, h31, h32]
                · simp [validate_message, hid, hts, hk1, hk2, hk3]
          · simp [validate_message, hid, hts]
        · simp [validate_message, hid]
  refine ⟨hchar, ?_⟩
  intro fields kind k v h
  rw [hchar] at h ⊢
  obtain ⟨f0, hf0, hid, hts, hrest⟩ := h
  have hf : f0 = fields := by
    injection hf0 with hf
    exact hf.symm
  subst hf
  refine ⟨(k, v) :: f0, rfl, hcons f0 k "id" v hid,
    hcons f0 k "timestamp" v hts, ?_⟩
  rcases hrest with ⟨hk, h1, h2⟩ | ⟨hk, h1, h2⟩ | ⟨hk, h1, h2⟩
  · exact Or.inl ⟨hk, hcons f0 k "type" v h1, hcons f0 k "payload" v h2⟩
  · exact Or.inr (Or.inl ⟨hk, hcons f0 k "requestId" v h1,
      hcons f0 k "status" v h2⟩)
  · exact Or.inr (Or.inr ⟨hk, hcons f0 k "type" v h1,
      hcons f0 k "data" v h2⟩)

/-- C6: the backend id `dispatch` resolves is the routing-table entry for
the declared request type, the `default` entry (backend "1") for an
undeclared, non-string or absent type, depends only on the type field of
the request, and the table maps `default` to "1". -/
theorem C6_routing_resolution :
    (∀ (request : Value) (t : String),
       vget request "type" = some (Value.vStr t) →
       acontains REQUEST_TYPE_MAPPING t = true →
       some (resolve_server_id request) = alookup REQUEST_TYPE_MAPPING t) ∧
    (∀ (request : Value) (t : String),
       vget request "type" = some (Value.vStr t) →
       acontains REQUEST_TYPE_MAPPING t = false →
       resolve_server_id request = "1") ∧
    (∀ (request : Value) (v : Value),
       vget request "type" = some v → (∀ s, v ≠ Value.vStr s) →
       resolve_server_id request = "1") ∧
    (∀ request : Value,
       vget request "type" = none → resolve_server_id request = "1") ∧
    (∀ r1 r2 : Value,
       vget r1 "type" = vget r2 "type" →
       resolve_server_id r1 = resolve_server_id r2) ∧
    alookup REQUEST_TYPE_MAPPING "default" = some "1" := by
  refine ⟨?_, ?_, ?_, ?_, ?_, rfl⟩
  · intro request t h hc
    obtain ⟨x, hx⟩ := Option.isSome_iff_exists.mp (by simpa [acontains] using hc)
    simp [resolve_server_id, mapping_get, h, hx]
  · intro request t h hc
    have hlk : alookup REQUEST_TYPE_MAPPING t = none := by
      have : (alookup REQUEST_TYPE_MAPPING t).isSome = false := by
        simpa [acontains] using hc
      exact Option.not_isSome_iff_eq_none.mp (by simp [this])
    have hd : default_server_id = "1" := rfl
    simp [resolve_server_id, mapping_get, h, hlk, hd]
  · intro request v h hs
    have hm : mapping_get v = none := by
      cases v with
      | vStr s => exact absurd rfl (hs s)
      | vNone => rfl
      | vBool b => rfl
      | vNum n => rfl
      | vList items => rfl
      | vDict fields => rfl
    have hd : default_server_id = "1" := rfl
    simp [resolve_server_id, h, hm, hd]
  · intro request h
    simp [resolve_server_id, h]
    rfl
  · intro r1 r2 h
    simp [resolve_server_id, h]

/-- C10: `getQueuedNotifications` for a client with no queue returns the
empty list and changes nothing; for a registered client it removes and
returns the oldest `min(maxCount, length)` notifications in enqueue order
(all of them when `maxCount` is None), leaves the rest queued in order, and
touches no other queue of the client map. -/
theorem C10_get_client_notifications_drain :
    ∀ (queues : List (String × List Value)) (client_id : String)
      (max_count : Option Nat),
    (acontains queues client_id = false →
       get_client_notifications queues client_id max_count = ([], queues)) ∧
    (∀ q, alookup queues client_id = some q →
       (get_client_notifications queues client_id max_count).1
           = q.take (max_count.getD q.length) ∧
       (get_client_notifications queues client_id max_count).1.length
           = min (max_count.getD q.length) q.length ∧
       (get_client_notifications queues client_id max_count).1
           ++ q.drop (max_count.getD q.length) = q ∧
       alookup (get_client_notifications queues client_id max_count).2
           client_id = some (q.drop (max_count.getD q.length)) ∧
       (max_count = none →
          (get_client_notifications queues client_id max_count).1 = q) ∧
       (∀ k2, k2 ≠ client_id →
          alookup (get_client_notifications queues client_id max_count).2 k2
            = alookup queues k2)) := by
  intro queues client_id max_count
  constructor
  · intro hc
    have hlk : alookup queues client_id = none := by
      have : (alookup queues client_id).isSome = false := by
        simpa [acontains] using hc
      exact Option.not_isSome_iff_eq_none.mp (by simp [this])
    simp [get_client_notifications, hlk]
  · intro q hq
    have hout : get_client_notifications queues client_id max_count
        = (q.take (max_count.getD q.length),
           ainsert queues client_id (q.drop (max_count.getD q.length))) := by
      cases max_count with
      | none =>
          simp [get_client_notifications, hq, drain_loop_none]
      | some m =>
          simp [get_client_notifications, hq, drain_loop_some]
    rw [hout]
    refine ⟨rfl, ?_, ?_, ?_, ?_, ?_⟩
    · simp [List.length_take]
    · simp [List.take_append_drop]
    · simp [alookup_ainsert_self]
    · intro hnone
      subst hnone
      simp
    · intro k2 hk2
      simp [alookup_ainsert_ne queues client_id k2 _ hk2]

/-- C5 (amended): `dispatch` fails with the request-validation error exactly
when the envelope fails validation; with the configuration error exactly
when no base address (or an empty one) is registered for the resolved
backend id; with the backend-status error — carrying the backend id and the
raw response text — exactly when the transport returned a status other than
200; with the transport error — carrying the raw error text — exactly when
the transport call raised (timeouts included); and otherwise returns the
backend response body unchanged. The cases are exhaustive and mutually
exclusive, so each listed outcome holds if and only if its condition
does. -/
theorem C5_dispatch_error_taxonomy :
    ∀ (server_urls : List (String × String))
      (transport : String → Nat → HttpOutcome) (request : Value),
    (validate_message request "request" = false →
       dispatch server_urls transport request
         = Except.error DispatchError.requestError) ∧
    (validate_message request "request" = true →
       ((alookup server_urls (resolve_server_id request) = none ∨
           alookup server_urls (resolve_server_id request) = some "") →
          dispatch server_urls transport request
            = Except.error (DispatchError.configurationError
                (resolve_server_id request))) ∧
       (∀ url, alookup server_urls (resolve_server_id request) = some url →
          url ≠ "" →
          (∀ msg, transport (url ++ "/process") 30 = HttpOutcome.exn msg →
             dispatch server_urls transport request
               = Except.error (DispatchError.transportError msg)) ∧
          (∀ status body text,
             transport (url ++ "/process") 30
               = HttpOutcome.resp status body text →
             (status ≠ 200 →
                dispatch server_urls transport request
                  = Except.error (DispatchError.backendStatusError
                      (resolve_server_id request) text)) ∧
             (status = 200 →
                dispatch server_urls transport request = Except.ok body)))) := by
  intro server_urls transport request
  constructor
  · intro hv
    simp [dispatch, hv]
  · intro hv
    constructor
    · intro hurl
      rcases hurl with hurl | hurl
      · simp [dispatch, hv, hurl]
      · simp [dispatch, hv, hurl]
    · intro url hurl hne
      constructor
      · intro msg htr
        simp [dispatch, hv, hurl, hne, htr]
      · intro status body text htr
        constructor
        · intro hst
          simp [dispatch, hv, hurl, hne, htr, hst]
        · intro hst
          simp [dispatch, hv, hurl, hne, htr, hst]

/-- A well-formed request envelope of type `resource-request`, used to
evaluate the dispatcher at concrete inputs. -/
def sample_request : Value :=
  Value.vDict
    [("id", Value.vStr "req-1"),
     ("timestamp", Value.vNum 0),
     ("type", Value.vStr "resource-request"),
     ("payload", Value.vDict [])]

/-- C5 counterexample: for a backend answering with status 201 — a success
(2xx) status — `dispatch` nevertheless raises the backend error (the source
tests `status_code != 200`, not the 2xx range), refuting the claim that a
backend error occurs only for a failed transport call or a non-2xx
status. -/
theorem C5_counterexample_status_201 :
    dispatch [("1", "http://s1")]
        (fun _ _ => HttpOutcome.resp 201 Value.vNone "created")
        sample_request
      = Except.error (DispatchError.backendStatusError "1" "created") ∧
    (200 ≤ (201 : Int) ∧ (201 : Int) < 300) :=
  ⟨rfl, by decide⟩

/-- C5 witness: the amended theorem applied at concrete inputs — a valid
envelope routed to backend "1", whose transport answers 200 with a body
that comes back unchanged. -/
theorem C5_witness_success_roundtrip :
    dispatch [("1", "http://s1")]
        (fun _ _ => HttpOutcome.resp 200 (Value.vStr "answer") "ok")
        sample_request
      = Except.ok (Value.vStr "answer") :=
  (((C5_dispatch_error_taxonomy [("1", "http://s1")]
      (fun _ _ => HttpOutcome.resp 200 (Value.vStr "answer") "ok")
      sample_request).2 rfl).2 "http://s1" rfl (by decide) |>.2
    200 (Value.vStr "answer") "ok" rfl).2 rfl

/-- C8: the create-session route answers 400 and stores nothing when
`clientId` is missing or empty; for a non-empty string `clientId` it
answers 201 with the fresh session id and stores a session whose
`clientId` is the given one, whose `created` and `lastActivity` are the
present clock reading and whose active-request dict is empty, leaving
every other session untouched. -/
theorem C8_create_session_route_spec :
    ∀ (sessions : List (String × PySession)) (data : List (String × Value))
      (fresh_id : String) (now : Int),
    ((alookup data "clientId" = none ∨
        alookup data "clientId" = some (Value.vStr "")) →
       (create_session_route sessions data fresh_id now).1 = 400 ∧
       (create_session_route sessions data fresh_id now).2.2 = sessions) ∧
    (∀ s : String, alookup data "clientId" = some (Value.vStr s) → s ≠ "" →
       (create_session_route sessions data fresh_id now).1 = 201 ∧
       (create_session_route sessions data fresh_id now).2.1
         = Value.vDict [("sessionId", Value.vStr fresh_id)] ∧
       alookup (create_session_route sessions data fresh_id now).2.2 fresh_id
         = some { clientId := Value.vStr s, created := now,
                  lastActivity := now, activeRequests := [] } ∧
       (∀ sid, sid ≠ fresh_id →
          alookup (create_session_route sessions data fresh_id now).2.2 sid
            = alookup sessions sid)) := by
  intro sessions data fresh_id now
  constructor
  · intro h
    rcases h with h | h
    · simp [create_session_route, h, pyTruthy]
    · simp [create_session_route, h, pyTruthy]
  · intro s h hs
    have ht : pyTruthy (Value.vStr s) = true := by simp [pyTruthy, hs]
    refine ⟨?_, ?_, ?_, ?_⟩
    · simp [create_session_route, h, ht]
    · simp [create_session_route, h, ht]
    · simp [create_session_route, h, ht, alookup_ainsert_self]
    · intro sid hsid
      simp [create_session_route, h, ht,
        alookup_ainsert_ne sessions fresh_id sid _ hsid]

/-- C8 witness: the theorem applied at concrete inputs — a create call with
client id "c1" stores the expected fresh session, and one with an empty
client id stores nothing. -/
theorem C8_create_session_route_witness :
    (create_session_route [] [("clientId", Value.vStr "c1")] "s1" 7).1
        = 201 ∧
    alookup (create_session_route []
        [("clientId", Value.vStr "c1")] "s1" 7).2.2 "s1"
      = some { clientId := Value.vStr "c1", created := 7,
               lastActivity := 7, activeRequests := [] } ∧
    (create_session_route [] [("clientId", Value.vStr "")] "s2" 7).1
        = 400 ∧
    (create_session_route [] [("clientId", Value.vStr "")] "s2" 7).2.2
        = [] := by
  have h1 := (C8_create_session_route_spec []
    [("clientId", Value.vStr "c1")] "s1" 7).2 "c1" rfl (by decide)
  have h2 := (C8_create_session_route_spec []
    [("clientId", Value.vStr "")] "s2" 7).1 (Or.inr rfl)
  exact ⟨h1.1, h1.2.2.1, h2.1, h2.2⟩

/-- C1: a request submitted against an existing session always terminates
in the completed (200) or failed (500) state; in both cases the handler
makes exactly one `send_notification` call for the session client —
`request-completed` on success, `request-error` on failure — and the
request entry is absent from the session active-request dict afterwards,
including when the dispatcher call raises. -/
theorem C1_handle_request_terminal :
    ∀ (sessions : List (String × PySession)) (session_id : String)
      (session : PySession) (request_data : List (String × Value))
      (server_urls : List (String × String))
      (transport : String → Nat → HttpOutcome) (fresh_id : String)
      (now : Int),
    alookup sessions session_id = some session →
    (akeys session.activeRequests).Nodup →
    let r := handle_request sessions session_id request_data server_urls
      transport fresh_id now
    (r.status = 200 ∨ r.status = 500) ∧
    (∃ payload, r.emissions = [(session.clientId, payload)] ∧
       (r.status = 200 →
          alookup payload "type" = some (Value.vStr "request-completed")) ∧
       (r.status = 500 →
          alookup payload "type" = some (Value.vStr "request-error"))) ∧
    (∃ session2, alookup r.sessions session_id = some session2 ∧
       acontains session2.activeRequests
         (request_id_of request_data fresh_id) = false) := by
  intro sessions session_id session request_data server_urls transport
    fresh_id now hs hnd
  have hins : acontains (ainsert session.activeRequests
      (request_id_of request_data fresh_id)
      { timestamp := now,
        request := request_data_with_id request_data fresh_id })
      (request_id_of request_data fresh_id) = true :=
    acontains_ainsert_self _ _ _
  have herase : acontains (aerase (ainsert session.activeRequests
      (request_id_of request_data fresh_id)
      { timestamp := now,
        request := request_data_with_id request_data fresh_id })
      (request_id_of request_data fresh_id))
      (request_id_of request_data fresh_id) = false :=
    acontains_aerase_ainsert_self _ _ _ hnd
  simp only [handle_request, hs]
  cases hd : dispatch server_urls transport
      (Value.vDict (request_data_with_id request_data fresh_id)) with
  | ok response =>
      dsimp only
      refine ⟨Or.inl rfl, ⟨_, rfl, fun _ => rfl,
        fun h => absurd h (by decide)⟩, ⟨_, alookup_ainsert_self _ _ _, ?_⟩⟩
      simpa [hins] using herase
  | error e =>
      dsimp only
      refine ⟨Or.inr rfl, ⟨_, rfl, fun h => absurd h (by decide),
        fun _ => rfl⟩, ⟨_, alookup_ainsert_self _ _ _, ?_⟩⟩
      simpa [hins] using herase

/-- C1 witness: the theorem applied at a concrete session and request, for a
transport answering 200: the handler answers 200, emits the one
`request-completed` notification for client "c1", and the tracking entry is
gone afterwards. -/
theorem C1_handle_request_terminal_witness :
    let r := handle_request
      [("s1", { clientId := Value.vStr "c1", created := 0,
                lastActivity := 0, activeRequests := [] })]
      "s1"
      [("id", Value.vStr "r9"), ("timestamp", Value.vNum 0),
       ("type", Value.vStr "tool-execution"), ("payload", Value.vDict [])]
      [("3", "http://s3")]
      (fun _ _ => HttpOutcome.resp 200 (Value.vStr "ok") "ok") "u1" 5
    (r.status = 200 ∨ r.status = 500) ∧
    (∃ payload, r.emissions = [(Value.vStr "c1", payload)] ∧
       (r.status = 200 →
          alookup payload "type" = some (Value.vStr "request-completed")) ∧
       (r.status = 500 →
          alookup payload "type" = some (Value.vStr "request-error"))) ∧
    (∃ session2, alookup r.sessions "s1" = some session2 ∧
       acontains session2.activeRequests
         (request_id_of
           [("id", Value.vStr "r9"), ("timestamp", Value.vNum 0),
            ("type", Value.vStr "tool-execution"),
            ("payload", Value.vDict [])] "u1") = false) :=
  C1_handle_request_terminal
    [("s1", { clientId := Value.vStr "c1", created := 0,
              lastActivity := 0, activeRequests := [] })]
    "s1"
    { clientId := Value.vStr "c1", created := 0, lastActivity := 0,
      activeRequests := [] }
    [("id", Value.vStr "r9"), ("timestamp", Value.vNum 0),
     ("type", Value.vStr "tool-execution"), ("payload", Value.vDict [])]
    [("3", "http://s3")]
    (fun _ _ => HttpOutcome.resp 200 (Value.vStr "ok") "ok") "u1" 5
    rfl (by simp [akeys])

/-- C3 (amended): a submission whose id-completed body fails request
validation is rejected — the handler answers 500 with the
`Invalid request format` message, the one notification emitted is a
`request-error` for the session client, and the transiently written
in-flight entry is removed again — but not before state mutation: the
session `lastActivity` is set to the time of the call before validation
happens (validation runs inside the dispatcher call, after the activity
bump and the in-flight write). -/
theorem C3_invalid_request_rejection :
    ∀ (sessions : List (String × PySession)) (session_id : String)
      (session : PySession) (request_data : List (String × Value))
      (server_urls : List (String × String))
      (transport : String → Nat → HttpOutcome) (fresh_id : String)
      (now : Int),
    alookup sessions session_id = some session →
    (akeys session.activeRequests).Nodup →
    validate_message (Value.vDict (request_data_with_id request_data fresh_id))
        "request" = false →
    let r := handle_request sessions session_id request_data server_urls
      transport fresh_id now
    r.status = 500 ∧
    r.body = Value.vDict
      [("error", Value.vStr "Failed to process request"),
       ("message", Value.vStr "Invalid request format")] ∧
    (∃ payload, r.emissions = [(session.clientId, payload)] ∧
       alookup payload "type" = some (Value.vStr "request-error")) ∧
    (∃ session2, alookup r.sessions session_id = some session2 ∧
       session2.lastActivity = now ∧
       acontains session2.activeRequests
         (request_id_of request_data fresh_id) = false) := by
  intro sessions session_id session request_data server_urls transport
    fresh_id now hs hnd hv
  have hins : acontains (ainsert session.activeRequests
      (request_id_of request_data fresh_id)
      { timestamp := now,
        request := request_data_with_id request_data fresh_id })
      (request_id_of request_data fresh_id) = true :=
    acontains_ainsert_self _ _ _
  have herase : acontains (aerase (ainsert session.activeRequests
      (request_id_of request_data fresh_id)
      { timestamp := now,
        request := request_data_with_id request_data fresh_id })
      (request_id_of request_data fresh_id))
      (request_id_of request_data fresh_id) = false :=
    acontains_aerase_ainsert_self _ _ _ hnd
  have hd : dispatch server_urls transport
      (Value.vDict (request_data_with_id request_data fresh_id))
      = Except.error DispatchError.requestError := by
    simp [dispatch, hv]
  simp only [handle_request, hs, hd]
  refine ⟨?_, ?_, ⟨_, rfl, rfl⟩, ⟨_, alookup_ainsert_self _ _ _, ?_, ?_⟩⟩
  · trivial
  · trivial
  · trivial
  · simpa [hins] using herase

/-- C3 counterexample: at a session whose `lastActivity` is 0 and a clock
reading of 1, an invalid request body (it lacks `timestamp`, `type` and
`payload`) leaves the session with `lastActivity` 1: the claim that the
timestamp is the same after the call as before it is false — the handler
bumps activity before validation. -/
theorem C3_counterexample_lastActivity_bumped :
    ¬ ((alookup (handle_request
          [("s1", { clientId := Value.vStr "c1", created := 0,
                    lastActivity := 0, activeRequests := [] })]
          "s1" [] [("1", "http://s1")]
          (fun _ _ => HttpOutcome.exn "down") "r1" 1).sessions
          "s1").map PySession.lastActivity
        = (alookup
            [("s1", { clientId := Value.vStr "c1", created := 0,
                      lastActivity := 0, activeRequests := [] })]
            "s1").map PySession.lastActivity) := by
  intro h
  have h1 : (alookup (handle_request
      [("s1", { clientId := Value.vStr "c1", created := 0,
                lastActivity := 0, activeRequests := [] })]
      "s1" [] [("1", "http://s1")]
      (fun _ _ => HttpOutcome.exn "down") "r1" 1).sessions
      "s1").map PySession.lastActivity = some 1 := rfl
  have h2 : (alookup
      [("s1", { clientId := Value.vStr "c1", created := 0,
                lastActivity := 0, activeRequests := [] })]
      "s1").map PySession.lastActivity = some 0 := rfl
  rw [h1, h2] at h
  exact absurd (Option.some.inj h) (by decide)

/-- C3 witness: the amended theorem applied at the concrete invalid
submission of the counterexample. -/
theorem C3_invalid_request_rejection_witness :
    let r := handle_request
      [("s1", { clientId := Value.vStr "c1", created := 0,
                lastActivity := 0, activeRequests := [] })]
      "s1" [] [("1", "http://s1")]
      (fun _ _ => HttpOutcome.exn "down") "r1" 1
    r.status = 500 ∧
    r.body = Value.vDict
      [("error", Value.vStr "Failed to process request"),
       ("message", Value.vStr "Invalid request format")] ∧
    (∃ payload, r.emissions = [(Value.vStr "c1", payload)] ∧
       alookup payload "type" = some (Value.vStr "request-error")) ∧
    (∃ session2, alookup r.sessions "s1" = some session2 ∧
       session2.lastActivity = 1 ∧
       acontains session2.activeRequests (request_id_of [] "r1") = false) :=
  C3_invalid_request_rejection
    [("s1", { clientId := Value.vStr "c1", created := 0,
              lastActivity := 0, activeRequests := [] })]
    "s1"
    { clientId := Value.vStr "c1", created := 0, lastActivity := 0,
      activeRequests := [] }
    [] [("1", "http://s1")]
    (fun _ _ => HttpOutcome.exn "down") "r1" 1
    rfl (by simp [akeys]) rfl

/-- C2: the event stream of app.py never carries a pushed notification —
whatever `app_send_notification` reports. For every client, clock readings
and number of keep-alive iterations, the `type` fields of the yielded
events are exactly `connected` followed by `ping`s; meanwhile
`app_send_notification` answers true for a registered client although it
only logs (nothing is enqueued anywhere and no further event is yielded),
shown here at a concrete pushed `request-completed` notification. -/
theorem C2_stream_never_carries_pushed_notifications :
    (∀ (client_id : String) (times : Nat → Int) (pings : Nat),
       (events_stream client_id times pings).map (fun e => alookup e "type")
         = some (Value.vStr "connected")
             :: List.replicate pings (some (Value.vStr "ping"))) ∧
    app_send_notification ["c1"] (Value.vStr "c1")
        [("type", Value.vStr "request-completed"),
         ("requestId", Value.vStr "r1")] = true := by
  refine ⟨?_, rfl⟩
  intro client_id times pings
  simp only [events_stream, List.map_cons, List.map_map]
  have h1 : alookup (connected_event client_id (times 0)) "type"
      = some (Value.vStr "connected") := rfl
  have h2 : ((fun e => alookup e "type") ∘
        fun i => ping_event (i + 1) (times (i + 1)))
      = fun i => some (Value.vStr "ping") := by
    funext i
    rfl
  rw [h1, h2, List.map_const', List.length_range]

/-- C7: evaluating notifications.py at the spec scenarios.
`send_notification` to an unregistered client returns False and changes
nothing; but for a registered client whose channel write fails, and for a
broadcast over three registered clients of which the second channel fails,
the except branch calls `unregister_client` — which re-acquires the
non-reentrant `threading.Lock` the caller already holds — so the operation
deadlocks: the failed client is not unregistered, the remaining client
never receives the broadcast and no count is returned. -/
theorem C7_notification_failure_deadlocks :
    send_notification
        { clients := ["c1", "c3"], queues := [("c1", []), ("c3", [])] }
        (fun _ => true) "c9" (Value.vDict [("type", Value.vStr "event")])
        "n1" 0
      = LockOutcome.ok (false,
          { clients := ["c1", "c3"], queues := [("c1", []), ("c3", [])] }) ∧
    send_notification
        { clients := ["c1"], queues := [("c1", [])] }
        (fun _ => false) "c1" (Value.vDict [("type", Value.vStr "event")])
        "n2" 0
      = LockOutcome.deadlock ∧
    broadcast_notification
        { clients := ["c1", "c2", "c3"],
          queues := [("c1", []), ("c2", []), ("c3", [])] }
        (fun c => c != "c2") (Value.vDict [("type", Value.vStr "event")])
        "n3" 0
      = LockOutcome.deadlock :=
  ⟨rfl, rfl, rfl⟩

/- ===== Sweep lemmas for C4 ===== -/

theorem close_session_table_eq_filter (l : List (String × MSession))
    (k : String) (h : (akeys l).Nodup) :
    close_session_table l k = l.filter (fun p => !(p.1 == k)) := by
  by_cases hc : acontains l k = true
  · rw [close_session_table, if_pos hc]
    exact aerase_eq_filter l k h
  · rw [close_session_table, if_neg hc, Eq.comm, List.filter_eq_self]
    intro a ha
    have hne : a.1 ≠ k := by
      intro hh
      exact hc ((acontains_iff_mem_akeys l k).mpr
        (hh ▸ List.mem_map_of_mem Prod.fst ha))
    simp [hne]

theorem akeys_nodup_close (l : List (String × MSession)) (k : String)
    (h : (akeys l).Nodup) : (akeys (close_session_table l k)).Nodup := by
  rw [close_session_table]
  by_cases hc : acontains l k = true
  · rw [if_pos hc]
    exact akeys_nodup_aerase l k h
  · rw [if_neg hc]
    exact h

theorem foldl_close_eq_filter (ids : List String)
    (l : List (String × MSession)) (h : (akeys l).Nodup) :
    ids.foldl close_session_table l
      = l.filter (fun p => !(ids.contains p.1)) := by
  induction ids generalizing l with
  | nil => simp
  | cons i ids ih =>
      calc (i :: ids).foldl close_session_table l
          = ids.foldl close_session_table (close_session_table l i) := rfl
        _ = (close_session_table l i).filter (fun p => !(ids.contains p.1)) :=
            ih _ (akeys_nodup_close l i h)
        _ = (l.filter (fun p => !(p.1 == i))).filter
              (fun p => !(ids.contains p.1)) := by
            rw [close_session_table_eq_filter l i h]
        _ = l.filter (fun p => !((i :: ids).contains p.1)) := by
            rw [List.filter_filter]
            refine List.filter_congr ?_
            intro a _
            have hbd : (a.1 == i) = decide (a.1 = i) := by
              by_cases hai : a.1 = i
              · simp [hai]
              · simp [hai]
            simp [List.contains_cons, Bool.not_or, Bool.and_comm, hbd]

theorem cleanup_inactive_eq (sessions : List (String × MSession))
    (timeout_seconds now : Int) (h : (akeys sessions).Nodup) :
    cleanup_inactive_sessions sessions timeout_seconds now
      = (Value.vNum ((sessions.filter
            (fun p => is_inactive p.2 timeout_seconds now)).length),
         sessions.filter (fun p => !is_inactive p.2 timeout_seconds now)) := by
  simp only [cleanup_inactive_sessions]
  rw [foldl_close_eq_filter _ _ h]
  have hpt : ∀ p ∈ sessions,
      (!(((sessions.filter
            (fun p => is_inactive p.2 timeout_seconds now)).map
              Prod.fst).contains p.1))
        = (!is_inactive p.2 timeout_seconds now) := by
    intro p hp
    congr 1
    by_cases hq : is_inactive p.2 timeout_seconds now = true
    · rw [hq]
      have hmem : p.1 ∈ (sessions.filter
          (fun p => is_inactive p.2 timeout_seconds now)).map Prod.fst :=
        List.mem_map_of_mem Prod.fst (List.mem_filter.mpr ⟨hp, hq⟩)
      simpa using hmem
    · have hq0 : is_inactive p.2 timeout_seconds now = false :=
        Bool.eq_false_iff.mpr hq
      rw [hq0]
      cases hb : ((sessions.filter
          (fun p => is_inactive p.2 timeout_seconds now)).map
            Prod.fst).contains p.1 with
      | false => rfl
      | true =>
          exfalso
          have hmem : p.1 ∈ (sessions.filter
              (fun p => is_inactive p.2 timeout_seconds now)).map Prod.fst :=
            by simpa using hb
          obtain ⟨p2, hp2, hk2⟩ := List.mem_map.mp hmem
          have hp2s := List.mem_filter.mp hp2
          have : p2 = p := keys_nodup_inj sessions h p2 p hp2s.1 hp hk2
          rw [this] at hp2s
          exact hq hp2s.2
  rw [List.filter_congr hpt, List.length_map]

theorem sweep_keys_cons_notmem (now : Int) (ks : List String) (sid : String)
    (s : PySession) :
    ∀ (tbl : List (String × PySession)), sid ∉ ks →
    sweep_keys now ks ((sid, s) :: tbl)
      = ((sid, s) :: (sweep_keys now ks tbl).1,
         (sweep_keys now ks tbl).2) := by
  induction ks with
  | nil =>
      intro tbl _
      rfl
  | cons k ks ih =>
      intro tbl hmem
      have hne : sid ≠ k := fun hh => hmem (hh ▸ List.mem_cons_self k ks)
      have hmem2 : sid ∉ ks := fun hh => hmem (List.mem_cons_of_mem k hh)
      have hlk : alookup ((sid, s) :: tbl) k = alookup tbl k := by
        simp [alookup, hne]
      cases hl : alookup tbl k with
      | none =>
          simp only [sweep_keys, hlk, hl]
          exact ih tbl hmem2
      | some sess =>
          cases hexp : app_expired sess now with
          | true =>
              have he : aerase ((sid, s) :: tbl) k
                  = (sid, s) :: aerase tbl k := by
                simp [aerase, hne]
              simp only [sweep_keys, hlk, hl, he, if_pos hexp]
              rw [ih (aerase tbl k) hmem2]
          | false =>
              have hneg : ¬(app_expired sess now = true) := by
                simp [hexp]
              simp only [sweep_keys, hlk, hl, if_neg hneg]
              exact ih tbl hmem2

theorem cleanup_pass_eq (sessions : List (String × PySession)) (now : Int)
    (h : (akeys sessions).Nodup) :
    cleanup_sessions_pass sessions now
      = (sessions.filter (fun p => !app_expired p.2 now),
         (sessions.filter (fun p => app_expired p.2 now)).map
           (fun p => (p.2.clientId, session_expired_payload p.1 now))) := by
  unfold cleanup_sessions_pass
  induction sessions with
  | nil => rfl
  | cons hd rest ih =>
      obtain ⟨sid, s⟩ := hd
      simp only [akeys, List.map_cons, List.nodup_cons] at h
      have hk : akeys ((sid, s) :: rest) = sid :: akeys rest := rfl
      have hlk : alookup ((sid, s) :: rest) sid = some s := by
        simp [alookup]
      rw [hk]
      cases hexp : app_expired s now with
      | true =>
          have he : aerase ((sid, s) :: rest) sid = rest := by simp [aerase]
          simp only [sweep_keys, hlk, he, if_pos hexp]
          rw [ih (by simpa [akeys] using h.2)]
          simp [List.filter_cons, hexp]
      | false =>
          have hneg : ¬(app_expired s now = true) := by simp [hexp]
          simp only [sweep_keys, hlk, if_neg hneg]
          rw [sweep_keys_cons_notmem now (akeys rest) sid s rest
            (by simpa [akeys] using h.1)]
          rw [ih (by simpa [akeys] using h.2)]
          simp [List.filter_cons, hexp]

/-- C4 (amended): one run of the registry sweep
`cleanup_inactive_sessions` closes exactly the sessions whose
`now - lastActivity` strictly exceeds the threshold — a session at or
inside the threshold is retained — and returns the NUMBER of closed
sessions (a count, not the list of their ids); one pass of the app-level
sweep closes exactly the sessions idle for more than 1800 seconds and
makes exactly one `session-expired` notification call per closed session,
carrying that session's clientId, in table order. -/
theorem C4_idle_sweep_characterization :
    (∀ (sessions : List (String × MSession)) (timeout_seconds now : Int),
       (akeys sessions).Nodup →
       cleanup_inactive_sessions sessions timeout_seconds now
         = (Value.vNum ((sessions.filter
               (fun p => is_inactive p.2 timeout_seconds now)).length),
            sessions.filter
              (fun p => !is_inactive p.2 timeout_seconds now))) ∧
    (∀ (sessions : List (String × PySession)) (now : Int),
       (akeys sessions).Nodup →
       cleanup_sessions_pass sessions now
         = (sessions.filter (fun p => !app_expired p.2 now),
            (sessions.filter (fun p => app_expired p.2 now)).map
              (fun p => (p.2.clientId, session_expired_payload p.1 now)))) :=
  ⟨cleanup_inactive_eq, cleanup_pass_eq⟩

/-- C4 counterexample: at a table with one session idle beyond the
threshold, `cleanup_inactive_sessions` returns the number 1 — not the list
of closed session ids the claim describes. -/
theorem C4_counterexample_count_not_id_list :
    (cleanup_inactive_sessions
        [("s1", { client_id := "c1", created := 0, last_activity := 0 })]
        1800 1801).1 = Value.vNum 1 ∧
    (cleanup_inactive_sessions
        [("s1", { client_id := "c1", created := 0, last_activity := 0 })]
        1800 1801).1 ≠ Value.vList [Value.vStr "s1"] := by
  refine ⟨rfl, ?_⟩
  intro h
  have h1 : (cleanup_inactive_sessions
      [("s1", { client_id := "c1", created := 0, last_activity := 0 })]
      1800 1801).1 = Value.vNum 1 := rfl
  rw [h1] at h
  exact Value.noConfusion h

/-- C4 witness: the amended theorem applied at concrete tables — a session
idle for 1801 s is closed and counted while one exactly at the 1800 s
threshold is retained, and the app-level pass closes the one expired
session and makes exactly the one `session-expired` call for its client. -/
theorem C4_idle_sweep_witness :
    cleanup_inactive_sessions
        [("s1", { client_id := "c1", created := 0, last_activity := 0 }),
         ("s2", { client_id := "c2", created := 0, last_activity := 1 })]
        1800 1801
      = (Value.vNum 1,
         [("s2", { client_id := "c2", created := 0, last_activity := 1 })]) ∧
    cleanup_sessions_pass
        [("t1", { clientId := Value.vStr "d1", created := 0,
                  lastActivity := 0, activeRequests := [] }),
         ("t2", { clientId := Value.vStr "d2", created := 0,
                  lastActivity := 1, activeRequests := [] })] 1801
      = ([("t2", { clientId := Value.vStr "d2", created := 0,
                   lastActivity := 1, activeRequests := [] })],
         [(Value.vStr "d1", session_expired_payload "t1" 1801)]) :=
  ⟨(C4_idle_sweep_characterization.1
      [("s1", { client_id := "c1", created := 0, last_activity := 0 }),
       ("s2", { client_id := "c2", created := 0, last_activity := 1 })]
      1800 1801 (by simp [akeys])).trans rfl,
   (C4_idle_sweep_characterization.2
      [("t1", { clientId := Value.vStr "d1", created := 0,
                lastActivity := 0, activeRequests := [] }),
       ("t2", { clientId := Value.vStr "d2", created := 0,
                lastActivity := 1, activeRequests := [] })]
      1801 (by simp [akeys])).trans rfl⟩

end MCP
